import Mathlib

/-!
Shallow embedding of the multi-task-agent-workflow review pipeline
(src/rag/orchestrator.py, src/agents/decision_agent.py,
src/agents/retriever_agent.py, src/settings/settings.py).

Python dynamic values flowing out of `json.loads` are modelled by the
`Json` inductive; machine floats are modelled by exact rationals; external
effects (embedding provider, vector store, LLM) are parameters of the
functions that call them, carrying either their successful value or the
exception they raise.
-/

namespace MTAW

/-- A parsed JSON value, as produced by Python's `json.loads`.
Objects are association lists of string keys. -/
inductive Json where
  | null : Json
  | jbool : Bool → Json
  | jnum : ℚ → Json
  | jstr : String → Json
  | jarr : List Json → Json
  | jobj : List (String × Json) → Json

/-- Python iteration `for x in v` over a JSON value: lists yield their
elements, strings yield their one-character substrings, dicts yield their
keys; numbers, booleans and null raise `TypeError` (modelled as `none`). -/
def jsonIter : Json → Option (List Json)
  | Json.jarr xs => some xs
  | Json.jstr s => some (s.data.map (fun c => Json.jstr (String.singleton c)))
  | Json.jobj fs => some (fs.map (fun p => Json.jstr p.1))
  | _ => none

/-- A row returned by the pgvector similarity query:
`(chunk_id, document_id, text, similarity)` (retriever_agent.py:72-89). -/
structure Row where
  chunk_id : ℕ
  document_id : ℕ
  text : String
  similarity : ℚ
deriving DecidableEq

/-- `RetrievalReport` from schemas/review.py, as populated by
`RetrieverAgent.process`. -/
structure RetrievalReport where
  passages : List String
  tags : List String
  doc_ids : List ℕ
  coverage : ℚ
deriving DecidableEq

/-- The dictionary returned by `DecisionAgent.process` /
`_validate_and_filter_decision`.  After validation `decision` is always
one of the strings "approve"/"reject", and every citation is a string
(only strings can compare equal to the available tags), so those two
fields get precise types; `rationale` and the `required_actions` elements
are passed through from the raw model JSON unchanged, so they stay `Json`. -/
structure DecisionResult where
  decision : String
  rationale : Json
  citations : List String
  confidence : ℚ
  required_actions : List Json

/-- The `data` dictionary inside an orchestrator response
(orchestrator.py:91-148). -/
structure ReviewData where
  task_id : String
  decision : String
  rationale : Json
  citations : List String
  retrieved_doc_ids : List ℕ
  coverage : ℚ
  latency_ms : ℕ
  required_actions : List Json
  confidence : ℚ

/-- A full orchestrator response: `{"message": ..., "data": {...}}`. -/
structure ReviewResponse where
  message : String
  data : ReviewData

/-- Settings fields consumed by the pipeline (settings/settings.py).
`GEMINI_API_KEY` and `DATABASE_URL` model `os.getenv`: `none` when the
variable is unset, and the empty string is also falsy in the validation. -/
structure Settings where
  LLM_MODEL : String
  EMBEDDING_MODEL : String
  EMBEDDING_DIM : ℤ
  GEMINI_API_KEY : Option String
  TOP_K : ℤ
  COVERAGE_THRESHOLD : ℚ
  APPROVAL_COVERAGE_MIN : ℚ
  MAX_CONTEXT_CHARS : ℕ
  DATABASE_URL : Option String

/-- Truthiness of an optional string, as in `if not self.GEMINI_API_KEY`. -/
def strFalsy : Option String → Bool
  | none => true
  | some s => s = ""

/-- `Settings.__init__` fail-fast validation (settings.py:22-35):
`Except.error` is the `ValueError` raised, `Except.ok` the constructed
settings object. -/
def settingsInit (s : Settings) : Except String Settings :=
  if strFalsy s.GEMINI_API_KEY then Except.error "GEMINI_API_KEY is required"
  else if strFalsy s.DATABASE_URL then Except.error "DATABASE_URL is required"
  else if s.EMBEDDING_MODEL ∉ ["gemini-embedding-001", "text-embedding-004"] then
    Except.error "EMBEDDING_MODEL must be one of the expected models"
  else if s.EMBEDDING_MODEL = "gemini-embedding-001" ∧ s.EMBEDDING_DIM ≠ 768 then
    Except.error "gemini-embedding-001 requires EMBEDDING_DIM=768"
  else Except.ok s

/-! ## Decision agent (src/agents/decision_agent.py) -/

/-- Behaviour of the `_generate_decision` model call followed by
`json.loads`: the model call raises, or returns text that fails to parse,
or returns text parsing to a JSON object (modelled by its fields). -/
inductive LLMOutcome where
  | genError : String → LLMOutcome
  | badJson : String → LLMOutcome
  | parsed : List (String × Json) → LLMOutcome

/-- The required-action dictionary of the decision agent's canonical
reject response (decision_agent.py:160-165). -/
def provideMoreContextAgent : Json :=
  Json.jobj [("action", Json.jstr "provide_more_context"),
             ("description", Json.jstr "Provide additional documentation or context for review")]

/-- `DecisionAgent._create_reject_response` (decision_agent.py:153-166). -/
def createRejectResponse : DecisionResult :=
  { decision := "reject"
    rationale := Json.jstr "Unable to process decision due to insufficient information or invalid data format"
    citations := []
    confidence := 0
    required_actions := [provideMoreContextAgent] }

/-- Python membership `tag in available_tags` for a JSON value against a
list of strings: only a string can compare equal to a string. -/
def citationKeep (tags : List String) : Json → Option String
  | Json.jstr t => if t ∈ tags then some t else none
  | _ => none

/-- `DecisionAgent._validate_and_filter_decision` (decision_agent.py:111-151).
The surrounding try/except turns the `TypeError` from iterating a
non-iterable `citations` value into the canonical reject response. -/
def validateAndFilterDecision (d : List (String × Json)) (available_tags : List String) :
    DecisionResult :=
  if (d.lookup "decision").isNone ∨ (d.lookup "rationale").isNone ∨
     (d.lookup "citations").isNone ∨ (d.lookup "confidence").isNone then
    createRejectResponse
  else
    match d.lookup "decision" with
    | some (Json.jstr s) =>
      if s = "approve" ∨ s = "reject" then
        match jsonIter ((d.lookup "citations").getD Json.null) with
        | none => createRejectResponse
        | some items =>
          let filtered := items.filterMap (citationKeep available_tags)
          let conf : ℚ :=
            match d.lookup "confidence" with
            | some (Json.jnum q) => if q < 0 ∨ q > 1 then 0 else q
            | some (Json.jbool b) => if b then 1 else 0
            | _ => 0
          let ra : List Json :=
            match d.lookup "required_actions" with
            | some (Json.jarr xs) => xs
            | _ => []
          { decision := s
            rationale := (d.lookup "rationale").getD Json.null
            citations := filtered
            confidence := conf
            required_actions := ra }
      else createRejectResponse
    | some _ => createRejectResponse
    | none => createRejectResponse

/-- `DecisionAgent.process` (decision_agent.py:27-55).  `coverage` is read
from the input dictionary but never used by the agent.  An empty `details`
raises a `ValueError` that the outer `except` turns into the canonical
reject; a model-call error (re-raised by `_generate_decision`) and a
`JSONDecodeError` are likewise caught there. -/
def decisionProcess (details : String) (passages tags : List String) (coverage : ℚ)
    (llm : LLMOutcome) : DecisionResult :=
  if details = "" then createRejectResponse
  else if passages = [] ∨ tags = [] then createRejectResponse
  else
    match llm with
    | LLMOutcome.genError _ => createRejectResponse
    | LLMOutcome.badJson _ => createRejectResponse
    | LLMOutcome.parsed d => validateAndFilterDecision d tags

/-! ## Retriever agent (src/agents/retriever_agent.py) -/

/-- Round to the nearest integer, ties to even — the rounding of Python's
`round` builtin. -/
def roundHalfEven (q : ℚ) : ℤ :=
  let f := ⌊q⌋
  if q - f < 1/2 then f
  else if q - f > 1/2 then f + 1
  else if f % 2 = 0 then f else f + 1

/-- Python `round(x, 3)`. -/
def round3 (q : ℚ) : ℚ := (roundHalfEven (q * 1000) : ℚ) / 1000

/-- The empty report returned on any retrieval failure
(retriever_agent.py:138-145). -/
def emptyReport : RetrievalReport :=
  { passages := [], tags := [], doc_ids := [], coverage := 0 }

/-- `if document_id not in doc_ids: doc_ids.append(document_id)` —
first-occurrence-preserving accumulation (retriever_agent.py:116-117). -/
def appendNewDoc (acc : List ℕ) (d : ℕ) : List ℕ :=
  if d ∈ acc then acc else acc ++ [d]

/-- Pydantic construction of `RetrievalReport` (schemas/review.py:70-74):
`coverage` is declared `Field(..., ge=0.0, le=1.0)`, so construction with
an out-of-range coverage raises `ValidationError`; the other fields are
unconstrained. -/
def mkRetrievalReport (passages tags : List String) (doc_ids : List ℕ) (coverage : ℚ) :
    Except String RetrievalReport :=
  if 0 ≤ coverage ∧ coverage ≤ 1 then
    Except.ok { passages := passages, tags := tags, doc_ids := doc_ids, coverage := coverage }
  else Except.error "ValidationError: coverage must be in the interval [0, 1]"

/-- The outer `except` of `RetrieverAgent.process` applied to the report
construction: a successful construction is returned, a raised
`ValidationError` degrades to the empty report (retriever_agent.py:138-145). -/
def reportOrEmpty : Except String RetrievalReport → RetrievalReport
  | Except.ok report => report
  | Except.error _ => emptyReport

/-- The tag string `f"doc:\x7bdocument_id\x7d#chunk:\x7bchunk_id\x7d"`
(retriever_agent.py:112). -/
def mkTag (document_id chunk_id : ℕ) : String :=
  "doc:" ++ toString document_id ++ "#chunk:" ++ toString chunk_id

/-- `RetrieverAgent.process` (retriever_agent.py:52-145).  The embedding
call's behaviour and the vector-store query's behaviour are parameters:
`Except.error` is the exception each would raise.  An empty `details`
raises a `ValueError`; that, an embedding failure, the length-mismatch
`ValueError`, and the pydantic `ValidationError` from an out-of-range
coverage are all caught by the outer `except`, yielding the empty report;
a query failure is caught by the inner `except`, yielding
`results = []`. -/
def retrieverProcess (input_details : String) (embed : Except String (List ℚ))
    (query : Except String (List Row)) : RetrievalReport :=
  if input_details = "" then emptyReport
  else
    match embed with
    | Except.error _ => emptyReport
    | Except.ok _ =>
      let results : List Row :=
        match query with
        | Except.error _ => []
        | Except.ok rows => rows
      let passages :=
        results.map (fun r => if r.text.length > 1500 then r.text.take 1500 else r.text)
      let tags := results.map (fun r => mkTag r.document_id r.chunk_id)
      let doc_ids := results.foldl (fun acc r => appendNewDoc acc r.document_id) []
      let similarities := results.map (fun r => r.similarity)
      let coverage : ℚ :=
        if similarities = [] then 0 else similarities.sum / similarities.length
      if passages.length ≠ tags.length then emptyReport
      else reportOrEmpty (mkRetrievalReport passages tags doc_ids (round3 coverage))

/-! ## Orchestrator (src/rag/orchestrator.py) -/

/-- Left-pad a digit string with zeros to the given width. -/
def padZeros (s : String) (k : ℕ) : String :=
  String.mk (List.replicate (k - s.length) '0') ++ s

/-- Python `f"\x7bq:.2f\x7d"` for a rational standing in for a float. -/
def formatQ2 (q : ℚ) : String :=
  let n := roundHalfEven (q * 100)
  let sign := if n < 0 then "-" else ""
  let m := n.natAbs
  sign ++ toString (m / 100) ++ "." ++ padZeros (toString (m % 100)) 2

/-- Python `str()` of a float configuration value, for rationals that have
a finite decimal expansion of at most 6 digits (every configuration value
of interest does); Python shows a whole float with a trailing ".0". -/
def ratStr (q : ℚ) : String :=
  let sign := if q < 0 then "-" else ""
  let a := |q|
  match (List.range 7).find? (fun k => (a * ((10 : ℚ) ^ k)).den = 1) with
  | some 0 => sign ++ toString a.num.natAbs ++ ".0"
  | some (k + 1) =>
    let n := (a * ((10 : ℚ) ^ (k + 1))).num.natAbs
    sign ++ toString (n / 10 ^ (k + 1)) ++ "." ++ padZeros (toString (n % 10 ^ (k + 1))) (k + 1)
  | none => sign ++ toString a.num.natAbs ++ "/" ++ toString a.den

/-- The required-action dictionary of the orchestrator's low-coverage
response (orchestrator.py:101-106); its description differs from the
decision agent's canonical one. -/
def provideMoreContextOrch : Json :=
  Json.jobj [("action", Json.jstr "provide_more_context"),
             ("description", Json.jstr "Provide additional context or documentation for review")]

/-- The required-action dictionary of the orchestrator's error response
(orchestrator.py:140-145). -/
def retryRequestAction : Json :=
  Json.jobj [("action", Json.jstr "retry_request"),
             ("description", Json.jstr "Retry the request after checking system status")]

/-- The fixed rationale installed by the policy gate on downgrade
(orchestrator.py:82). -/
def policyFailRationale : String :=
  "Insufficient context or citations for approval. Requires higher coverage and at least 2 distinct citations."

/-- The low-coverage rationale (orchestrator.py:96): coverage is formatted
with two decimals, the threshold with Python `str`. -/
def lowCoverageRationale (coverage threshold : ℚ) : String :=
  "Insufficient contextual information available for review. Coverage " ++ formatQ2 coverage ++
    " is below required threshold " ++ ratStr threshold ++ "."

/-- The error-response rationale (orchestrator.py:135). -/
def errorRationale (error_msg : String) : String :=
  "Processing error: " ++ error_msg ++ ". Unable to complete review."

/-- `RAGOrchestrator._apply_policy_gate` (orchestrator.py:71-87):
`len(set(citations))` is the number of distinct citation strings. -/
def applyPolicyGate (cfg : Settings) (decision_result : DecisionResult)
    (retrieval_report : RetrievalReport) : DecisionResult :=
  if decision_result.decision = "approve" then
    let coverage_ok := retrieval_report.coverage ≥ cfg.APPROVAL_COVERAGE_MIN
    let citations_ok := decision_result.citations.dedup.length ≥ 2
    if ¬(coverage_ok ∧ citations_ok) then
      { decision_result with
          decision := "reject"
          rationale := Json.jstr policyFailRationale
          citations := []
          confidence := 0 }
    else decision_result
  else decision_result

/-- `RAGOrchestrator._create_low_coverage_response` (orchestrator.py:89-109).
`elapsedMs` stands for `int((time.time() - start_time) * 1000)`. -/
def createLowCoverageResponse (cfg : Settings) (task_id : String)
    (retrieval_report : RetrievalReport) (elapsedMs : ℕ) : ReviewResponse :=
  { message := "review completed"
    data := { task_id := task_id
              decision := "reject"
              rationale := Json.jstr (lowCoverageRationale retrieval_report.coverage cfg.COVERAGE_THRESHOLD)
              citations := []
              retrieved_doc_ids := retrieval_report.doc_ids
              coverage := retrieval_report.coverage
              latency_ms := elapsedMs
              required_actions := [provideMoreContextOrch]
              confidence := 0 } }

/-- `RAGOrchestrator._create_final_response` (orchestrator.py:111-126). -/
def createFinalResponse (task_id : String) (decision_result : DecisionResult)
    (retrieval_report : RetrievalReport) (elapsedMs : ℕ) : ReviewResponse :=
  { message := "review completed"
    data := { task_id := task_id
              decision := decision_result.decision
              rationale := decision_result.rationale
              citations := decision_result.citations
              retrieved_doc_ids := retrieval_report.doc_ids
              coverage := retrieval_report.coverage
              latency_ms := elapsedMs
              required_actions := decision_result.required_actions
              confidence := decision_result.confidence } }

/-- `RAGOrchestrator._create_error_response` (orchestrator.py:128-148). -/
def createErrorResponse (task_id error_msg : String) (elapsedMs : ℕ) : ReviewResponse :=
  { message := "review failed"
    data := { task_id := task_id
              decision := "reject"
              rationale := Json.jstr (errorRationale error_msg)
              citations := []
              retrieved_doc_ids := []
              coverage := 0
              latency_ms := elapsedMs
              required_actions := [retryRequestAction]
              confidence := 0 } }

/-- One run of the pipeline's external world: either the three external
calls behave as recorded (each possibly raising an exception that the
component containing it handles), or some unhandled exception escapes
into the orchestrator's `try` block from steps 1-5. -/
inductive PipelineEvent where
  | ok : Except String (List ℚ) → Except String (List Row) → LLMOutcome → PipelineEvent
  | raised : String → PipelineEvent

/-- The body of `RAGOrchestrator.process_review`'s `try` block
(orchestrator.py:32-65): retrieve, coverage gate, decide, policy gate,
finalize. -/
def processReviewOk (cfg : Settings) (task_id details : String)
    (embed : Except String (List ℚ)) (query : Except String (List Row))
    (llm : LLMOutcome) (elapsedMs : ℕ) : ReviewResponse :=
  let retrieval_report := retrieverProcess details embed query
  if retrieval_report.coverage < cfg.COVERAGE_THRESHOLD then
    createLowCoverageResponse cfg task_id retrieval_report elapsedMs
  else
    let decision_result :=
      decisionProcess details retrieval_report.passages retrieval_report.tags
        retrieval_report.coverage llm
    let gated := applyPolicyGate cfg decision_result retrieval_report
    createFinalResponse task_id gated retrieval_report elapsedMs

/-- `RAGOrchestrator.process_review` (orchestrator.py:25-69): the
`except Exception` backstop turns an escaped exception into the error
response. -/
def processReview (cfg : Settings) (task_id details : String) (ev : PipelineEvent)
    (elapsedMs : ℕ) : ReviewResponse :=
  match ev with
  | PipelineEvent.ok embed query llm => processReviewOk cfg task_id details embed query llm elapsedMs
  | PipelineEvent.raised msg => createErrorResponse task_id msg elapsedMs

/-- The settings object built from the defaults in settings.py (the two
secrets are environment-supplied; any non-empty value passes validation). -/
def defaultSettings : Settings :=
  { LLM_MODEL := "gemini-1.5-flash"
    EMBEDDING_MODEL := "gemini-embedding-001"
    EMBEDDING_DIM := 768
    GEMINI_API_KEY := some "key"
    TOP_K := 4
    COVERAGE_THRESHOLD := 35/100
    APPROVAL_COVERAGE_MIN := 45/100
    MAX_CONTEXT_CHARS := 5000
    DATABASE_URL := some "db" }

/-! ## Helper lemmas -/

theorem citationKeep_mem {tags : List String} {j : Json} {c : String}
    (h : citationKeep tags j = some c) : c ∈ tags := by
  cases j <;> simp [citationKeep] at h
  rcases h with ⟨hmem, rfl⟩
  exact hmem

/-- Every result of `_validate_and_filter_decision` carries a valid
decision string. -/
theorem validateAndFilterDecision_decision_valid (d : List (String × Json))
    (tags : List String) :
    (validateAndFilterDecision d tags).decision = "approve" ∨
      (validateAndFilterDecision d tags).decision = "reject" := by
  unfold validateAndFilterDecision
  split
  · exact Or.inr rfl
  · rcases hdec : d.lookup "decision" with _ | v
    · exact Or.inr rfl
    · cases v with
      | jstr s =>
        dsimp only
        by_cases hs : s = "approve" ∨ s = "reject"
        · rw [if_pos hs]
          rcases hiter : jsonIter ((d.lookup "citations").getD Json.null) with _ | items
          · exact Or.inr rfl
          · exact hs
        · rw [if_neg hs]; exact Or.inr rfl
      | null => exact Or.inr rfl
      | jbool b => exact Or.inr rfl
      | jnum q => exact Or.inr rfl
      | jarr xs => exact Or.inr rfl
      | jobj fs => exact Or.inr rfl

/-- Every citation surviving `_validate_and_filter_decision` is one of
the available tags. -/
theorem validateAndFilterDecision_citations_subset (d : List (String × Json))
    (tags : List String) :
    ∀ c ∈ (validateAndFilterDecision d tags).citations, c ∈ tags := by
  intro c hc
  unfold validateAndFilterDecision at hc
  split at hc
  · simp [createRejectResponse] at hc
  · rcases hdec : d.lookup "decision" with _ | v
    all_goals rw [hdec] at hc
    · simp [createRejectResponse] at hc
    · cases v with
      | jstr s =>
        dsimp only at hc
        by_cases hs : s = "approve" ∨ s = "reject"
        · rw [if_pos hs] at hc
          rcases hiter : jsonIter ((d.lookup "citations").getD Json.null) with _ | items
          all_goals rw [hiter] at hc
          · simp [createRejectResponse] at hc
          · dsimp only at hc
            simp only [List.mem_filterMap] at hc
            rcases hc with ⟨j, _, hj⟩
            exact citationKeep_mem hj
        · rw [if_neg hs] at hc; simp [createRejectResponse] at hc
      | null => simp [createRejectResponse] at hc
      | jbool b => simp [createRejectResponse] at hc
      | jnum q => simp [createRejectResponse] at hc
      | jarr xs => simp [createRejectResponse] at hc
      | jobj fs => simp [createRejectResponse] at hc

theorem decisionProcess_cases (details : String) (passages tags : List String) (coverage : ℚ)
    (llm : LLMOutcome) :
    decisionProcess details passages tags coverage llm = createRejectResponse ∨
      ∃ d, llm = LLMOutcome.parsed d ∧
        decisionProcess details passages tags coverage llm = validateAndFilterDecision d tags := by
  unfold decisionProcess
  split
  · exact Or.inl rfl
  · split
    · exact Or.inl rfl
    · cases llm with
      | genError m => exact Or.inl rfl
      | badJson m => exact Or.inl rfl
      | parsed d => exact Or.inr ⟨d, rfl, rfl⟩

theorem decisionProcess_decision_valid (details : String) (passages tags : List String)
    (coverage : ℚ) (llm : LLMOutcome) :
    (decisionProcess details passages tags coverage llm).decision = "approve" ∨
      (decisionProcess details passages tags coverage llm).decision = "reject" := by
  rcases decisionProcess_cases details passages tags coverage llm with h | ⟨d, _, h⟩
  · rw [h]; exact Or.inr rfl
  · rw [h]; exact validateAndFilterDecision_decision_valid d tags

theorem applyPolicyGate_decision_valid (cfg : Settings) (dr : DecisionResult)
    (report : RetrievalReport)
    (h : dr.decision = "approve" ∨ dr.decision = "reject") :
    (applyPolicyGate cfg dr report).decision = "approve" ∨
      (applyPolicyGate cfg dr report).decision = "reject" := by
  unfold applyPolicyGate
  split
  · next hap =>
    dsimp only
    by_cases hok : report.coverage ≥ cfg.APPROVAL_COVERAGE_MIN ∧ dr.citations.dedup.length ≥ 2
    · rw [if_neg (not_not_intro hok)]
      exact Or.inl hap
    · rw [if_pos hok]
      exact Or.inr rfl
  · exact h

theorem decisionProcess_citations_subset (details : String) (passages tags : List String)
    (coverage : ℚ) (llm : LLMOutcome) :
    ∀ c ∈ (decisionProcess details passages tags coverage llm).citations, c ∈ tags := by
  intro c hc
  rcases decisionProcess_cases details passages tags coverage llm with h | ⟨d, _, h⟩
  · rw [h] at hc; simp [createRejectResponse] at hc
  · rw [h] at hc
    exact validateAndFilterDecision_citations_subset d tags c hc

theorem round3_zero : round3 0 = 0 := by
  unfold round3 roundHalfEven
  norm_num

/-- The report-construction fallback: the constructed report when the
rounded coverage is within the pydantic bound [0,1], the empty report
(coverage 0) otherwise. -/
theorem reportOrEmpty_mkRetrievalReport_coverage (ps ts : List String) (ds : List ℕ)
    (c : ℚ) :
    (reportOrEmpty (mkRetrievalReport ps ts ds c)).coverage =
      if 0 ≤ c ∧ c ≤ 1 then c else 0 := by
  unfold mkRetrievalReport
  by_cases hb : 0 ≤ c ∧ c ≤ 1
  · rw [if_pos hb, if_pos hb]
    rfl
  · rw [if_neg hb, if_neg hb]
    rfl

/-- A successful retrieval over zero rows is the empty report. -/
theorem retrieverProcess_ok_nil (details : String) (v : List ℚ) (h : details ≠ "") :
    retrieverProcess details (Except.ok v) (Except.ok []) = emptyReport := by
  unfold retrieverProcess
  rw [if_neg h]
  dsimp only
  norm_num [mkRetrievalReport, reportOrEmpty, round3_zero, emptyReport]

/-! ## Claim theorems -/

/-- Claim C1: `process_review` is total — for every input and every
behaviour of the retriever and decision components, including an unhandled
exception escaping from steps 1-5, it returns a well-formed result (its
decision is always "approve" or "reject") and never propagates an
exception; in the exception case the result is the terminal error
response: message "review failed", decision reject, rationale embedding
the error message, a single retry_request required action, and the
measured latency. -/
theorem claim_C1 (cfg : Settings) (task_id details : String) (ev : PipelineEvent)
    (elapsedMs : ℕ) :
    ((processReview cfg task_id details ev elapsedMs).data.decision = "approve" ∨
      (processReview cfg task_id details ev elapsedMs).data.decision = "reject") ∧
    (∀ msg, ev = PipelineEvent.raised msg →
      processReview cfg task_id details ev elapsedMs =
        { message := "review failed"
          data := { task_id := task_id
                    decision := "reject"
                    rationale := Json.jstr ("Processing error: " ++ msg ++ ". Unable to complete review.")
                    citations := []
                    retrieved_doc_ids := []
                    coverage := 0
                    latency_ms := elapsedMs
                    required_actions := [retryRequestAction]
                    confidence := 0 } }) := by
  constructor
  · cases ev with
    | raised msg => exact Or.inr rfl
    | ok embed query llm =>
      unfold processReview processReviewOk
      dsimp only
      split
      · exact Or.inr rfl
      · exact applyPolicyGate_decision_valid cfg _ _
          (decisionProcess_decision_valid details _ _ _ llm)
  · intro msg hev
    subst hev
    rfl

/-- Witness for C1 at a concrete escaped exception. -/
theorem claim_C1_witness :
    processReview defaultSettings "t1" "task" (PipelineEvent.raised "boom") 5 =
      { message := "review failed"
        data := { task_id := "t1"
                  decision := "reject"
                  rationale := Json.jstr ("Processing error: " ++ "boom" ++ ". Unable to complete review.")
                  citations := []
                  retrieved_doc_ids := []
                  coverage := 0
                  latency_ms := 5
                  required_actions := [retryRequestAction]
                  confidence := 0 } } :=
  (claim_C1 defaultSettings "t1" "task" (PipelineEvent.raised "boom") 5).2 "boom" rfl

/-- Claim C2: every citation in a decision returned by the decision agent
is one of the available tags supplied with the same request — both for the
validator alone and through `DecisionAgent.process` — and when the raw
decision carries a citations array, the returned citations are exactly
that array filtered to the tags (anything else silently dropped). -/
theorem claim_C2 (details : String) (passages tags : List String) (coverage : ℚ)
    (llm : LLMOutcome) (d : List (String × Json)) :
    (∀ c ∈ (decisionProcess details passages tags coverage llm).citations, c ∈ tags) ∧
    (∀ c ∈ (validateAndFilterDecision d tags).citations, c ∈ tags) ∧
    (∀ s items, d.lookup "decision" = some (Json.jstr s) →
      (s = "approve" ∨ s = "reject") →
      (d.lookup "rationale").isSome →
      d.lookup "citations" = some (Json.jarr items) →
      (d.lookup "confidence").isSome →
      (validateAndFilterDecision d tags).citations = items.filterMap (citationKeep tags)) := by
  refine ⟨decisionProcess_citations_subset details passages tags coverage llm,
          validateAndFilterDecision_citations_subset d tags, ?_⟩
  intro s items hdec hs hrat hcit hconf
  rcases Option.isSome_iff_exists.mp hrat with ⟨vr, hvr⟩
  rcases Option.isSome_iff_exists.mp hconf with ⟨vc, hvc⟩
  unfold validateAndFilterDecision
  rw [hdec, hcit, hvr, hvc]
  simp only [Option.isNone_some, Option.getD_some, jsonIter, if_pos hs]
  simp

/-- Witness for C2 at a concrete raw decision containing a hallucinated
citation. -/
theorem claim_C2_witness :
    ("doc:1#chunk:1" ∈ (decisionProcess "task" ["p"] ["doc:1#chunk:1"] 0
        (LLMOutcome.parsed
          [("decision", Json.jstr "approve"), ("rationale", Json.jstr "r"),
           ("citations", Json.jarr [Json.jstr "doc:1#chunk:1", Json.jstr "doc:9#chunk:9"]),
           ("confidence", Json.jbool true)])).citations) ∧
    "doc:1#chunk:1" ∈ ["doc:1#chunk:1"] := by
  have hm : "doc:1#chunk:1" ∈ (decisionProcess "task" ["p"] ["doc:1#chunk:1"] 0
      (LLMOutcome.parsed
        [("decision", Json.jstr "approve"), ("rationale", Json.jstr "r"),
         ("citations", Json.jarr [Json.jstr "doc:1#chunk:1", Json.jstr "doc:9#chunk:9"]),
         ("confidence", Json.jbool true)])).citations := by
    simp [decisionProcess, validateAndFilterDecision, jsonIter, citationKeep, List.lookup]
  exact ⟨hm, (claim_C2 "task" ["p"] ["doc:1#chunk:1"] 0 _ []).1 _ hm⟩

/-- Claim C6: each failure branch of the decision generator/validator —
empty passages or tags (independent of the model's behaviour, i.e. no
model call), malformed JSON, a missing required field, or a decision value
outside \x7b"approve","reject"\x7d — yields exactly the canonical reject
response, whose concrete content is fixed. -/
theorem claim_C6 (details : String) (passages tags : List String) (coverage : ℚ)
    (raw : String) (d : List (String × Json)) :
    createRejectResponse =
      { decision := "reject"
        rationale := Json.jstr "Unable to process decision due to insufficient information or invalid data format"
        citations := []
        confidence := 0
        required_actions :=
          [Json.jobj [("action", Json.jstr "provide_more_context"),
                      ("description", Json.jstr "Provide additional documentation or context for review")]] } ∧
    (passages = [] ∨ tags = [] →
      ∀ llm, decisionProcess details passages tags coverage llm = createRejectResponse) ∧
    decisionProcess details passages tags coverage (LLMOutcome.badJson raw) = createRejectResponse ∧
    ((d.lookup "decision").isNone ∨ (d.lookup "rationale").isNone ∨
      (d.lookup "citations").isNone ∨ (d.lookup "confidence").isNone →
      validateAndFilterDecision d tags = createRejectResponse) ∧
    (∀ v, d.lookup "decision" = some v →
      (∀ s, v = Json.jstr s → ¬(s = "approve" ∨ s = "reject")) →
      validateAndFilterDecision d tags = createRejectResponse) := by
  refine ⟨rfl, ?_, ?_, ?_, ?_⟩
  · intro hempty llm
    unfold decisionProcess
    rcases hempty with h | h <;> simp [h]
  · unfold decisionProcess
    split
    · rfl
    · split
      · rfl
      · rfl
  · intro hmiss
    unfold validateAndFilterDecision
    rw [if_pos hmiss]
  · intro v hdec hnostr
    unfold validateAndFilterDecision
    split
    · rfl
    · rw [hdec]
      cases v with
      | jstr s =>
        dsimp only
        rw [if_neg (hnostr s rfl)]
      | null => rfl
      | jbool b => rfl
      | jnum q => rfl
      | jarr xs => rfl
      | jobj fs => rfl

/-- Witness for C6 at the empty-evidence short-circuit. -/
theorem claim_C6_witness :
    (([] : List String) = [] ∨ (["t"] : List String) = []) ∧
    decisionProcess "task" [] ["t"] 0 (LLMOutcome.parsed []) = createRejectResponse :=
  ⟨Or.inl rfl, (claim_C6 "task" [] ["t"] 0 "x" []).2.1 (Or.inl rfl) (LLMOutcome.parsed [])⟩

/-- Claim C3: when the retrieved coverage is strictly below
`COVERAGE_THRESHOLD`, the orchestrator returns the low-coverage reject
result — rationale naming the shortfall, exactly one
"provide_more_context" required action — and the decision generator is
never invoked (the result is independent of the model's behaviour);
otherwise the decision generator is invoked with exactly the retrieved
passages, tags and coverage, followed by the policy gate and
finalization. -/
theorem claim_C3 (cfg : Settings) (task_id details : String)
    (embed : Except String (List ℚ)) (query : Except String (List Row))
    (llm : LLMOutcome) (elapsedMs : ℕ) :
    ((retrieverProcess details embed query).coverage < cfg.COVERAGE_THRESHOLD →
      (∀ llm2, processReview cfg task_id details (PipelineEvent.ok embed query llm2) elapsedMs =
        createLowCoverageResponse cfg task_id (retrieverProcess details embed query) elapsedMs) ∧
      (createLowCoverageResponse cfg task_id (retrieverProcess details embed query) elapsedMs).data.decision = "reject" ∧
      (createLowCoverageResponse cfg task_id (retrieverProcess details embed query) elapsedMs).data.rationale =
        Json.jstr (lowCoverageRationale (retrieverProcess details embed query).coverage cfg.COVERAGE_THRESHOLD) ∧
      (createLowCoverageResponse cfg task_id (retrieverProcess details embed query) elapsedMs).data.required_actions =
        [provideMoreContextOrch]) ∧
    (¬ (retrieverProcess details embed query).coverage < cfg.COVERAGE_THRESHOLD →
      processReview cfg task_id details (PipelineEvent.ok embed query llm) elapsedMs =
        createFinalResponse task_id
          (applyPolicyGate cfg
            (decisionProcess details (retrieverProcess details embed query).passages
              (retrieverProcess details embed query).tags
              (retrieverProcess details embed query).coverage llm)
            (retrieverProcess details embed query))
          (retrieverProcess details embed query) elapsedMs) := by
  constructor
  · intro hlow
    refine ⟨?_, rfl, rfl, rfl⟩
    intro llm2
    unfold processReview processReviewOk
    dsimp only
    rw [if_pos hlow]
  · intro hhigh
    unfold processReview processReviewOk
    dsimp only
    rw [if_neg hhigh]

/-- Witness for C3 at an empty retrieval (coverage 0 below the default
threshold 0.35). -/
theorem claim_C3_witness :
    (retrieverProcess "task" (Except.ok [1]) (Except.ok [])).coverage < defaultSettings.COVERAGE_THRESHOLD ∧
    processReview defaultSettings "t1" "task"
        (PipelineEvent.ok (Except.ok [1]) (Except.ok []) (LLMOutcome.badJson "x")) 7 =
      createLowCoverageResponse defaultSettings "t1"
        (retrieverProcess "task" (Except.ok [1]) (Except.ok [])) 7 := by
  have h : (retrieverProcess "task" (Except.ok [1]) (Except.ok [])).coverage <
      defaultSettings.COVERAGE_THRESHOLD := by
    rw [retrieverProcess_ok_nil "task" [1] (by decide)]
    norm_num [emptyReport, defaultSettings]
  exact ⟨h, ((claim_C3 defaultSettings "t1" "task" (Except.ok [1]) (Except.ok [])
    (LLMOutcome.badJson "x") 7).1 h).1 (LLMOutcome.badJson "x")⟩

/-- Claim C4: the policy gate leaves "reject" decisions entirely
unchanged; it is evaluated only for "approve", which it keeps exactly when
coverage ≥ `APPROVAL_COVERAGE_MIN` and at least 2 distinct citations are
present, and otherwise downgrades in place to reject with citations
cleared, confidence 0.0 and the fixed policy-failure rationale; it never
upgrades (an "approve" output means the input was the same approve,
untouched). -/
theorem claim_C4 (cfg : Settings) (dr : DecisionResult) (report : RetrievalReport) :
    (dr.decision = "reject" → applyPolicyGate cfg dr report = dr) ∧
    (dr.decision = "approve" →
      (report.coverage ≥ cfg.APPROVAL_COVERAGE_MIN ∧ dr.citations.dedup.length ≥ 2 →
        applyPolicyGate cfg dr report = dr) ∧
      (¬(report.coverage ≥ cfg.APPROVAL_COVERAGE_MIN ∧ dr.citations.dedup.length ≥ 2) →
        applyPolicyGate cfg dr report =
          { dr with decision := "reject"
                    rationale := Json.jstr policyFailRationale
                    citations := []
                    confidence := 0 })) ∧
    ((applyPolicyGate cfg dr report).decision = "approve" → applyPolicyGate cfg dr report = dr) := by
  refine ⟨?_, ?_, ?_⟩
  · intro hrej
    unfold applyPolicyGate
    rw [if_neg (by rw [hrej]; decide)]
  · intro hap
    constructor
    · intro hok
      unfold applyPolicyGate
      rw [if_pos hap]
      dsimp only
      rw [if_neg (not_not_intro hok)]
    · intro hbad
      unfold applyPolicyGate
      rw [if_pos hap]
      dsimp only
      rw [if_pos hbad]
  · intro hap
    by_cases hd : dr.decision = "approve"
    · unfold applyPolicyGate at hap ⊢
      rw [if_pos hd] at hap ⊢
      dsimp only at hap ⊢
      by_cases hok : report.coverage ≥ cfg.APPROVAL_COVERAGE_MIN ∧ dr.citations.dedup.length ≥ 2
      · rw [if_neg (not_not_intro hok)]
      · rw [if_pos hok] at hap
        simp at hap
    · unfold applyPolicyGate at hap ⊢
      rw [if_neg hd] at hap ⊢

/-- Witness for C4: an approval with a single distinct citation is
downgraded even at high coverage. -/
theorem claim_C4_witness :
    ¬((⟨["p"], ["doc:1#chunk:1"], [1], 7/10⟩ : RetrievalReport).coverage ≥
        defaultSettings.APPROVAL_COVERAGE_MIN ∧
      (⟨"approve", Json.jstr "r", ["doc:1#chunk:1"], 9/10, []⟩ : DecisionResult).citations.dedup.length ≥ 2) ∧
    applyPolicyGate defaultSettings
        ⟨"approve", Json.jstr "r", ["doc:1#chunk:1"], 9/10, []⟩
        ⟨["p"], ["doc:1#chunk:1"], [1], 7/10⟩ =
      { decision := "reject", rationale := Json.jstr policyFailRationale,
        citations := [], confidence := 0, required_actions := [] } := by
  have hbad : ¬((⟨["p"], ["doc:1#chunk:1"], [1], 7/10⟩ : RetrievalReport).coverage ≥
      defaultSettings.APPROVAL_COVERAGE_MIN ∧
      (⟨"approve", Json.jstr "r", ["doc:1#chunk:1"], 9/10, []⟩ : DecisionResult).citations.dedup.length ≥ 2) := by
    intro hcon
    exact absurd hcon.2 (by decide)
  exact ⟨hbad, ((claim_C4 defaultSettings
    ⟨"approve", Json.jstr "r", ["doc:1#chunk:1"], 9/10, []⟩
    ⟨["p"], ["doc:1#chunk:1"], [1], 7/10⟩).2.1 rfl).2 hbad⟩

/-- Counterexample to claim C7 as stated: one retrieved row whose
similarity is −1 (cosine distance 2, an anti-correlated chunk) gives a
collected mean of −1, so the claim predicts coverage = round(−1, 3) = −1;
but the pydantic bound coverage ∈ [0,1] on `RetrievalReport` rejects that
value, and the `ValidationError` is caught into the empty report, so the
program's coverage is 0.0 ≠ −1 even though a similarity was collected. -/
theorem claim_C7_counterexample :
    (retrieverProcess "task" (Except.ok [1]) (Except.ok [⟨5, 2, "hello", -1⟩])).coverage = 0 ∧
    round3 ((([⟨5, 2, "hello", (-1 : ℚ)⟩] : List Row).map Row.similarity).sum /
      (([⟨5, 2, "hello", (-1 : ℚ)⟩] : List Row).map Row.similarity).length) = -1 ∧
    (0 : ℚ) ≠ -1 := by
  have hr : round3 (-1 : ℚ) = -1 := by
    unfold round3 roundHalfEven
    norm_num [Int.floor_eq_iff]
  refine ⟨?_, ?_, by norm_num⟩
  · simp [retrieverProcess, mkRetrievalReport, reportOrEmpty, emptyReport, hr]
    norm_num
  · simp [hr]

/-- Claim C7 as amended: the coverage of a retrieval report is the
arithmetic mean of the per-row similarities rounded to 3 decimal places
when rows were returned and that rounded mean lies within the pydantic
bound [0,1] on `RetrievalReport.coverage`; a rounded mean outside [0,1]
raises `ValidationError`, degrading to the empty report with coverage
0.0; and coverage is 0.0 when no rows were returned or retrieval failed
(query error, embedding error, empty details). -/
theorem claim_C7_amended (details : String) (v : List ℚ) (rows : List Row)
    (embed : Except String (List ℚ)) (h : details ≠ "") :
    ((retrieverProcess details (Except.ok v) (Except.ok rows)).coverage =
      if rows = [] then 0
      else
        let m := round3 ((rows.map Row.similarity).sum / (rows.map Row.similarity).length)
        if 0 ≤ m ∧ m ≤ 1 then m else 0) ∧
    (∀ e, (retrieverProcess details embed (Except.error e)).coverage = 0) ∧
    (∀ q, (retrieverProcess "" embed q).coverage = 0) := by
  refine ⟨?_, ?_, ?_⟩
  · unfold retrieverProcess
    rw [if_neg h]
    dsimp only
    rw [if_neg (by simp)]
    rw [reportOrEmpty_mkRetrievalReport_coverage]
    rcases rows with _ | ⟨r, rs⟩
    · simp [round3_zero]
    · simp
  · intro e
    unfold retrieverProcess
    rw [if_neg h]
    cases embed with
    | error m => simp [emptyReport]
    | ok w =>
      dsimp only
      rw [if_neg (by simp)]
      rw [reportOrEmpty_mkRetrievalReport_coverage]
      simp [round3_zero]
  · intro q
    unfold retrieverProcess
    rw [if_pos rfl]
    simp [emptyReport]

/-- Witness for the amended C7 at a single retrieved row of
similarity 1/2. -/
theorem claim_C7_amended_witness :
    ("task" : String) ≠ "" ∧
    ((retrieverProcess "task" (Except.ok [1]) (Except.ok [⟨5, 2, "hello", 1/2⟩])).coverage =
      if ([⟨5, 2, "hello", 1/2⟩] : List Row) = [] then 0
      else
        let m := round3 ((([⟨5, 2, "hello", (1/2 : ℚ)⟩] : List Row).map Row.similarity).sum /
          (([⟨5, 2, "hello", (1/2 : ℚ)⟩] : List Row).map Row.similarity).length)
        if 0 ≤ m ∧ m ≤ 1 then m else 0) := by
  have h : ("task" : String) ≠ "" := by decide
  exact ⟨h, (claim_C7_amended "task" [1] [⟨5, 2, "hello", 1/2⟩] (Except.ok []) h).1⟩

/-- Claim C10: `RetrieverAgent.process` never raises; with empty (or
missing, hence defaulted-to-empty) details the internal `ValueError` is
caught and the empty report (passages, tags, doc_ids all empty,
coverage 0.0) is returned, which the orchestrator's coverage gate turns
into a reject whenever the threshold is positive. -/
theorem claim_C10 (cfg : Settings) (task_id : String)
    (embed : Except String (List ℚ)) (query : Except String (List Row))
    (llm : LLMOutcome) (elapsedMs : ℕ) (h : 0 < cfg.COVERAGE_THRESHOLD) :
    retrieverProcess "" embed query = emptyReport ∧
    emptyReport = { passages := [], tags := [], doc_ids := [], coverage := 0 } ∧
    processReview cfg task_id "" (PipelineEvent.ok embed query llm) elapsedMs =
      createLowCoverageResponse cfg task_id emptyReport elapsedMs ∧
    (createLowCoverageResponse cfg task_id emptyReport elapsedMs).data.decision = "reject" := by
  have hempty : retrieverProcess "" embed query = emptyReport := by
    unfold retrieverProcess
    rw [if_pos rfl]
  refine ⟨hempty, rfl, ?_, rfl⟩
  unfold processReview processReviewOk
  dsimp only
  rw [hempty]
  rw [if_pos (by simpa [emptyReport] using h)]

/-- Witness for C10 at the default threshold 0.35. -/
theorem claim_C10_witness :
    (0 : ℚ) < defaultSettings.COVERAGE_THRESHOLD ∧
    processReview defaultSettings "t1" "" (PipelineEvent.ok (Except.ok [1]) (Except.ok []) (LLMOutcome.badJson "x")) 3 =
      createLowCoverageResponse defaultSettings "t1" emptyReport 3 := by
  have h : (0 : ℚ) < defaultSettings.COVERAGE_THRESHOLD := by
    norm_num [defaultSettings]
  exact ⟨h, (claim_C10 defaultSettings "t1" (Except.ok [1]) (Except.ok [])
    (LLMOutcome.badJson "x") 3 h).2.2.1⟩

/-- A concrete successful retrieval: one row of similarity 1/2, whose
report has coverage 1/2 (above the default threshold). -/
theorem sampleRetrieval_eq :
    retrieverProcess "task" (Except.ok [1]) (Except.ok [⟨5, 2, "hello", 1/2⟩]) =
      ⟨["hello"], ["doc:2#chunk:5"], [2], 1/2⟩ := by
  have hr : round3 ((2 : ℚ)⁻¹) = 2⁻¹ := by
    unfold round3 roundHalfEven
    norm_num [Int.floor_eq_iff]
  have hlen : ¬ (1500 < "hello".length) := by decide
  simp [retrieverProcess, mkTag, appendNewDoc, hlen]
  rw [hr]
  unfold mkRetrievalReport
  rw [if_pos (by norm_num)]
  rfl

/-- The policy gate forwards the canonical reject response unchanged. -/
theorem applyPolicyGate_reject_response (cfg : Settings) (report : RetrievalReport) :
    applyPolicyGate cfg createRejectResponse report = createRejectResponse := by
  unfold applyPolicyGate
  rw [if_neg (by simp [createRejectResponse])]

/-- Counterexample to claim C5 as stated: when the model-generation call
raises, the caller does not receive the orchestrator's terminal error
result — the failure is absorbed inside `DecisionAgent.process`, and the
response is a normally finalized "review completed" reject carrying the
canonical provide_more_context action rather than retry_request. -/
theorem claim_C5_counterexample :
    (processReview defaultSettings "t1" "task"
        (PipelineEvent.ok (Except.ok [1]) (Except.ok [⟨5, 2, "hello", 1/2⟩])
          (LLMOutcome.genError "model down")) 10).message = "review completed" ∧
    (processReview defaultSettings "t1" "task"
        (PipelineEvent.ok (Except.ok [1]) (Except.ok [⟨5, 2, "hello", 1/2⟩])
          (LLMOutcome.genError "model down")) 10).message ≠ "review failed" ∧
    (processReview defaultSettings "t1" "task"
        (PipelineEvent.ok (Except.ok [1]) (Except.ok [⟨5, 2, "hello", 1/2⟩])
          (LLMOutcome.genError "model down")) 10).data.decision = "reject" ∧
    (processReview defaultSettings "t1" "task"
        (PipelineEvent.ok (Except.ok [1]) (Except.ok [⟨5, 2, "hello", 1/2⟩])
          (LLMOutcome.genError "model down")) 10).data.required_actions = [provideMoreContextAgent] ∧
    provideMoreContextAgent ≠ retryRequestAction := by
  have key : processReview defaultSettings "t1" "task"
      (PipelineEvent.ok (Except.ok [1]) (Except.ok [⟨5, 2, "hello", 1/2⟩])
        (LLMOutcome.genError "model down")) 10 =
      createFinalResponse "t1" createRejectResponse ⟨["hello"], ["doc:2#chunk:5"], [2], 1/2⟩ 10 := by
    unfold processReview processReviewOk
    dsimp only
    rw [sampleRetrieval_eq]
    rw [if_neg (by norm_num [defaultSettings])]
    rw [show decisionProcess "task" ["hello"] ["doc:2#chunk:5"] (1/2) (LLMOutcome.genError "model down") =
      createRejectResponse by rfl]
    rw [applyPolicyGate_reject_response]
  rw [key]
  refine ⟨rfl, by simp [createFinalResponse], rfl, rfl, ?_⟩
  simp [provideMoreContextAgent, retryRequestAction]

/-- Claim C5 as amended: a model-generation failure is absorbed at the
DecisionAgent boundary as the canonical reject response (not propagated to
the orchestrator), so when the coverage gate passes the caller receives a
normally finalized "review completed" reject carrying the canonical
provide_more_context action — not the terminal error result. -/
theorem claim_C5_amended (cfg : Settings) (task_id details : String)
    (embed : Except String (List ℚ)) (query : Except String (List Row))
    (msg : String) (elapsedMs : ℕ)
    (h : ¬ (retrieverProcess details embed query).coverage < cfg.COVERAGE_THRESHOLD) :
    (∀ ps ts cov, decisionProcess details ps ts cov (LLMOutcome.genError msg) = createRejectResponse) ∧
    processReview cfg task_id details (PipelineEvent.ok embed query (LLMOutcome.genError msg)) elapsedMs =
      createFinalResponse task_id createRejectResponse (retrieverProcess details embed query) elapsedMs ∧
    (createFinalResponse task_id createRejectResponse (retrieverProcess details embed query) elapsedMs).message =
      "review completed" ∧
    (createFinalResponse task_id createRejectResponse (retrieverProcess details embed query) elapsedMs).data.required_actions =
      [provideMoreContextAgent] := by
  have hgen : ∀ ps ts cov, decisionProcess details ps ts cov (LLMOutcome.genError msg) =
      createRejectResponse := by
    intro ps ts cov
    unfold decisionProcess
    split
    · rfl
    · split
      · rfl
      · rfl
  refine ⟨hgen, ?_, rfl, rfl⟩
  unfold processReview processReviewOk
  dsimp only
  rw [if_neg h, hgen, applyPolicyGate_reject_response]

/-- Witness for the amended C5 at a concrete passing retrieval. -/
theorem claim_C5_amended_witness :
    ¬ (retrieverProcess "task" (Except.ok [1]) (Except.ok [⟨5, 2, "hello", 1/2⟩])).coverage <
        defaultSettings.COVERAGE_THRESHOLD ∧
    processReview defaultSettings "t1" "task"
        (PipelineEvent.ok (Except.ok [1]) (Except.ok [⟨5, 2, "hello", 1/2⟩])
          (LLMOutcome.genError "model down")) 10 =
      createFinalResponse "t1" createRejectResponse
        (retrieverProcess "task" (Except.ok [1]) (Except.ok [⟨5, 2, "hello", 1/2⟩])) 10 := by
  have h : ¬ (retrieverProcess "task" (Except.ok [1]) (Except.ok [⟨5, 2, "hello", 1/2⟩])).coverage <
      defaultSettings.COVERAGE_THRESHOLD := by
    rw [sampleRetrieval_eq]
    norm_num [defaultSettings]
  exact ⟨h, (claim_C5_amended defaultSettings "t1" "task" (Except.ok [1])
    (Except.ok [⟨5, 2, "hello", 1/2⟩]) "model down" 10 h).2.1⟩

/-- Counterexample to claim C8 as stated: a validated model reject whose
raw JSON has no required_actions reaches the caller as a reject with an
empty required_actions list. -/
theorem claim_C8_counterexample :
    (processReview defaultSettings "t1" "task"
        (PipelineEvent.ok (Except.ok [1]) (Except.ok [⟨5, 2, "hello", 1/2⟩])
          (LLMOutcome.parsed
            [("decision", Json.jstr "reject"), ("rationale", Json.jstr "nope"),
             ("citations", Json.jarr []), ("confidence", Json.jbool true)])) 10).data.decision = "reject" ∧
    (processReview defaultSettings "t1" "task"
        (PipelineEvent.ok (Except.ok [1]) (Except.ok [⟨5, 2, "hello", 1/2⟩])
          (LLMOutcome.parsed
            [("decision", Json.jstr "reject"), ("rationale", Json.jstr "nope"),
             ("citations", Json.jarr []), ("confidence", Json.jbool true)])) 10).data.required_actions = [] := by
  have key : processReview defaultSettings "t1" "task"
      (PipelineEvent.ok (Except.ok [1]) (Except.ok [⟨5, 2, "hello", 1/2⟩])
        (LLMOutcome.parsed
          [("decision", Json.jstr "reject"), ("rationale", Json.jstr "nope"),
           ("citations", Json.jarr []), ("confidence", Json.jbool true)])) 10 =
      createFinalResponse "t1" ⟨"reject", Json.jstr "nope", [], 1, []⟩
        ⟨["hello"], ["doc:2#chunk:5"], [2], 1/2⟩ 10 := by
    unfold processReview processReviewOk
    dsimp only
    rw [sampleRetrieval_eq]
    rw [if_neg (by norm_num [defaultSettings])]
    rw [show decisionProcess "task" ["hello"] ["doc:2#chunk:5"] (1/2)
        (LLMOutcome.parsed
          [("decision", Json.jstr "reject"), ("rationale", Json.jstr "nope"),
           ("citations", Json.jarr []), ("confidence", Json.jbool true)]) =
      (⟨"reject", Json.jstr "nope", [], 1, []⟩ : DecisionResult) by
        simp [decisionProcess, validateAndFilterDecision, List.lookup, jsonIter]]
    rw [show applyPolicyGate defaultSettings (⟨"reject", Json.jstr "nope", [], 1, []⟩ : DecisionResult)
        ⟨["hello"], ["doc:2#chunk:5"], [2], 1/2⟩ =
      (⟨"reject", Json.jstr "nope", [], 1, []⟩ : DecisionResult) by
        unfold applyPolicyGate
        rw [if_neg (by simp)]]
  rw [key]
  exact ⟨rfl, rfl⟩

/-- Claim C8 as amended: reject results assembled by the orchestrator
itself (the coverage gate and the terminal error path) and the decision
agent's canonical reject each carry exactly one required action; but the
policy gate leaves required_actions untouched and the final response
copies them verbatim from the decision result, so a reject coming from
validated model output may reach the caller with an empty
required_actions list. -/
theorem claim_C8_amended (cfg : Settings) (task_id msg : String)
    (report : RetrievalReport) (elapsedMs : ℕ) (dr : DecisionResult) :
    (createLowCoverageResponse cfg task_id report elapsedMs).data.decision = "reject" ∧
    (createLowCoverageResponse cfg task_id report elapsedMs).data.required_actions = [provideMoreContextOrch] ∧
    (createErrorResponse task_id msg elapsedMs).data.decision = "reject" ∧
    (createErrorResponse task_id msg elapsedMs).data.required_actions = [retryRequestAction] ∧
    createRejectResponse.decision = "reject" ∧
    createRejectResponse.required_actions = [provideMoreContextAgent] ∧
    (applyPolicyGate cfg dr report).required_actions = dr.required_actions ∧
    (createFinalResponse task_id dr report elapsedMs).data.required_actions = dr.required_actions := by
  refine ⟨rfl, rfl, rfl, rfl, rfl, rfl, ?_, rfl⟩
  unfold applyPolicyGate
  split
  · dsimp only
    split
    · rfl
    · rfl
  · rfl

/-- Counterexample to claim C9 as stated: text-embedding-004 is a
recognized embedding model, yet constructing settings for it with an
arbitrary dimension (999) succeeds instead of raising — the dimension
check is coded only for gemini-embedding-001. -/
theorem claim_C9_counterexample :
    settingsInit
      { LLM_MODEL := "gemini-1.5-flash", EMBEDDING_MODEL := "text-embedding-004",
        EMBEDDING_DIM := 999, GEMINI_API_KEY := some "key", TOP_K := 4,
        COVERAGE_THRESHOLD := 35/100, APPROVAL_COVERAGE_MIN := 45/100,
        MAX_CONTEXT_CHARS := 5000, DATABASE_URL := some "db" } =
    Except.ok
      { LLM_MODEL := "gemini-1.5-flash", EMBEDDING_MODEL := "text-embedding-004",
        EMBEDDING_DIM := 999, GEMINI_API_KEY := some "key", TOP_K := 4,
        COVERAGE_THRESHOLD := 35/100, APPROVAL_COVERAGE_MIN := 45/100,
        MAX_CONTEXT_CHARS := 5000, DATABASE_URL := some "db" } := by
  rfl

/-- Claim C9 as amended: settings construction succeeds exactly when the
API key and database URL are set, the embedding model is recognized, and —
only when the model is gemini-embedding-001 — the dimension is 768; for
text-embedding-004 no dimension validation is performed. -/
theorem claim_C9_amended (s : Settings) :
    settingsInit s = Except.ok s ↔
      strFalsy s.GEMINI_API_KEY = false ∧ strFalsy s.DATABASE_URL = false ∧
      s.EMBEDDING_MODEL ∈ ["gemini-embedding-001", "text-embedding-004"] ∧
      (s.EMBEDDING_MODEL = "gemini-embedding-001" → s.EMBEDDING_DIM = 768) := by
  unfold settingsInit
  split
  · next h1 => simp [h1]
  · next h1 =>
    split
    · next h2 => simp [h2]
    · next h2 =>
      split
      · next h3 => simp [h3]
      · next h3 =>
        split
        · next h4 => simp [h4.1, h4.2]
        · next h4 =>
          rw [Bool.not_eq_true] at h1 h2
          exact iff_of_true rfl
            ⟨h1, h2, not_not.mp h3,
              fun hm => Decidable.byContradiction (fun hd => h4 ⟨hm, hd⟩)⟩

end MTAW
